import Mathlib

/-! # dnsimple record operations (`record.go`)

A shallow embedding of `record.go`: the `Record` entity with its string
accessors and the three operations `CreateRecord`, `DestroyRecord` and
`RetrieveRecord`.

* Go `string` values are Lean `String`s; the `strconv` routines look at a
  string through its character list.  Every byte of a non-ASCII character is
  at least `0x80`, and `strconv` rejects such a byte exactly where this model
  rejects the character, so the two views agree.
* `int64` is the subtype `Int64` of `Int`; conversions and negation wrap
  modulo `2 ^ 64`.  `uint64` arithmetic is `Nat` arithmetic with an explicit
  `% 2 ^ 64`.
* `strconv.FormatInt` and `strconv.ParseInt` come from the Go standard
  library (Go 1.13 and later: base prefixes `0b`, `0o`, `0x` and digit
  separating underscores) and are embedded from `strconv/itoa.go` and
  `strconv/atoi.go`.  `strconv.IntSize` is a platform constant (32 or 64)
  and is a parameter `IntSize` of the model.
* The collaborators `Client.NewRequest`, `Client.Http.Do`, `checkResp` and
  `decodeBody` live outside `record.go`; they are parameters (`Client`,
  `Helpers`).  Every operation returns, next to its Go result, the list of
  collaborator calls it made, in order.
-/

namespace dnsimple

/-! ## Machine integers -/

/-- Go `int64`: the integers from `-2^63` to `2^63 - 1`. -/
abbrev Int64 : Type :=
  { i : Int // -9223372036854775808 ≤ i ∧ i < 9223372036854775808 }

/-- The conversion `int64(x)`: reduction of `x` modulo `2^64` into the
`int64` range. -/
def Int64.wrap (x : Int) : Int64 :=
  ⟨(x + 9223372036854775808) % 18446744073709551616 - 9223372036854775808, by omega⟩

/-- Go's unary minus on `int64` (wraps at `-2^63`). -/
def Int64.neg (x : Int64) : Int64 := Int64.wrap (-x.val)

/-- The conversion `uint64(i)` of an `int64`. -/
def Int64.toUint64 (x : Int64) : Nat := (x.val % 18446744073709551616).toNat

/-- Go `maxUint64 = 1<<64 - 1`. -/
def maxUint64 : Nat := 18446744073709551615

/-- Reduction of a natural number to a `uint64`. -/
def u64 (n : Nat) : Nat := n % 18446744073709551616

/-! ## `strconv/itoa.go` -/

/-- Go `const digits = "0123456789abcdefghijklmnopqrstuvwxyz"`. -/
def digits : String := "0123456789abcdefghijklmnopqrstuvwxyz"

/-- Go `const smallsString`: the two-digit renderings `00` .. `99`. -/
def smallsString : String :=
  "00010203040506070809" ++
  "10111213141516171819" ++
  "20212223242526272829" ++
  "30313233343536373839" ++
  "40414243444546474849" ++
  "50515253545556575859" ++
  "60616263646566676869" ++
  "70717273747576777879" ++
  "80818283848586878889" ++
  "90919293949596979899"

/-- Go `const nSmalls = 100`. -/
def nSmalls : Nat := 100

/-- The byte `s[i]` of a constant ASCII table. -/
def byteAt (s : String) (i : Nat) : Char := s.toList.getD i (Char.ofNat 0)

/-- Go `small(i)`: the rendering of `0 <= i < nSmalls`. -/
def small (i : Nat) : List Char :=
  if i < 10 then [byteAt digits i]
  else [byteAt smallsString (i * 2), byteAt smallsString (i * 2 + 1)]

/-- The loop `for us >= 100 \x7b ... \x7d` of the `base == 10` branch of
`formatBits`, writing two digits per round in front of `a`, followed by the
code for the remaining `us < 100`.  `fuel` bounds the number of rounds: the
buffer of `formatBits` has 65 bytes, so at most 32 rounds can write. -/
def formatBitsLoop : Nat → Nat → List Char → List Char
  | fuel + 1, us, a =>
    if us ≥ 100 then
      let is := us % 100 * 2
      formatBitsLoop fuel (us / 100) (byteAt smallsString is :: byteAt smallsString (is + 1) :: a)
    else
      let is := us * 2
      let a := byteAt smallsString (is + 1) :: a
      if us ≥ 10 then byteAt smallsString is :: a else a
  | 0, _, a => a

/-- Go `formatBits(nil, u, 10, neg, false)`: the `base == 10` branch, the
only one `record.go` reaches. -/
def formatBits (u : Nat) (neg : Bool) : List Char :=
  let u := if neg then u64 (18446744073709551616 - u) else u
  let a := formatBitsLoop 32 u []
  if neg then '-' :: a else a

/-- Go `strconv.FormatInt(i, 10)`. -/
def FormatInt (i : Int64) : String :=
  if 0 ≤ i.val ∧ i.val < nSmalls then String.mk (small i.val.toNat)
  else String.mk (formatBits i.toUint64 (decide (i.val < 0)))

/-! ## `strconv/atoi.go` -/

/-- Go `lower(c) = c | ('x' - 'X')`. -/
def lower (c : Nat) : Nat := c ||| 32

/-- The `Err` field of a `*strconv.NumError`. -/
inductive NumErr where
  | ErrSyntax
  | ErrRange
  | invalidBase (base : Nat)
  | invalidBitSize (bitSize : Nat)
  deriving DecidableEq, Repr

/-- Go `strconv.NumError`. -/
structure NumError where
  Func : String
  Num : String
  Err : NumErr
  deriving DecidableEq, Repr

/-- Go `syntaxError(fn, str)`. -/
def syntaxError (fn : String) (str : List Char) : NumError := ⟨fn, String.mk str, NumErr.ErrSyntax⟩

/-- Go `rangeError(fn, str)`. -/
def rangeError (fn : String) (str : List Char) : NumError := ⟨fn, String.mk str, NumErr.ErrRange⟩

/-- Go `baseError(fn, str, base)`. -/
def baseError (fn : String) (str : List Char) (base : Nat) : NumError :=
  ⟨fn, String.mk str, NumErr.invalidBase base⟩

/-- Go `bitSizeError(fn, str, bitSize)`. -/
def bitSizeError (fn : String) (str : List Char) (bitSize : Nat) : NumError :=
  ⟨fn, String.mk str, NumErr.invalidBitSize bitSize⟩

/-- The loop of `underscoreOK` over the number proper; `saw` is the last
character class seen (`'^'`, `'0'`, `'_'` or `'!'`). -/
def underscoreScan (hex : Bool) : List Char → Char → Bool
  | [], saw => decide (saw ≠ '_')
  | c :: s, saw =>
    if ('0'.toNat ≤ c.toNat ∧ c.toNat ≤ '9'.toNat) ∨
        (hex = true ∧ 'a'.toNat ≤ lower c.toNat ∧ lower c.toNat ≤ 'f'.toNat) then
      underscoreScan hex s '0'
    else if c = '_' then
      if saw ≠ '0' then false else underscoreScan hex s '_'
    else if saw = '_' then false
    else underscoreScan hex s '!'

/-- Go `underscoreOK(s)`: underscores appear only between digits or between
a base prefix and a digit. -/
def underscoreOK (s : List Char) : Bool :=
  let s := if s.length ≥ 1 ∧ (s.head? = some '-' ∨ s.head? = some '+') then s.drop 1 else s
  if s.length ≥ 2 ∧ s.head? = some '0' ∧
      (lower (s.getD 1 'A').toNat = 'b'.toNat ∨ lower (s.getD 1 'A').toNat = 'o'.toNat ∨
        lower (s.getD 1 'A').toNat = 'x'.toNat) then
    underscoreScan (decide (lower (s.getD 1 'A').toNat = 'x'.toNat)) (s.drop 2) '0'
  else
    underscoreScan false s '^'

/-- The digit loop of `ParseUint`.  The result is either an early return
`(value, error)` or, when the loop runs to the end, the accumulated number
with the `underscores` flag. -/
def parseUintLoop (s0 : List Char) (base : Nat) (base0 : Bool) (cutoff maxVal : Nat) :
    List Char → Nat → Bool → Except (Nat × NumError) (Nat × Bool)
  | [], n, underscores => Except.ok (n, underscores)
  | c :: s, n, underscores =>
    if c = '_' ∧ base0 = true then
      parseUintLoop s0 base base0 cutoff maxVal s n true
    else
      let d : Option Nat :=
        if '0'.toNat ≤ c.toNat ∧ c.toNat ≤ '9'.toNat then some (c.toNat - '0'.toNat)
        else if 'a'.toNat ≤ lower c.toNat ∧ lower c.toNat ≤ 'z'.toNat then
          some (lower c.toNat - 'a'.toNat + 10)
        else none
      match d with
      | none => Except.error (0, syntaxError "ParseUint" s0)
      | some d =>
        if d ≥ base % 256 then Except.error (0, syntaxError "ParseUint" s0)
        else if n ≥ cutoff then Except.error (maxVal, rangeError "ParseUint" s0)
        else
          let n := u64 (n * base)
          let n1 := u64 (n + d)
          if n1 < n ∨ n1 > maxVal then Except.error (maxVal, rangeError "ParseUint" s0)
          else parseUintLoop s0 base base0 cutoff maxVal s n1 underscores

/-- The base and the remaining text chosen by `ParseUint` for `base == 0`. -/
def basePrefix (s : List Char) : Nat × List Char :=
  if s.head? = some '0' then
    if s.length ≥ 3 ∧ lower (s.getD 1 'A').toNat = 'b'.toNat then (2, s.drop 2)
    else if s.length ≥ 3 ∧ lower (s.getD 1 'A').toNat = 'o'.toNat then (8, s.drop 2)
    else if s.length ≥ 3 ∧ lower (s.getD 1 'A').toNat = 'x'.toNat then (16, s.drop 2)
    else (8, s.drop 1)
  else (10, s)

/-- The part of `ParseUint` after the base is settled. -/
def parseUintBody (IntSize : Nat) (s0 : List Char) (base0 : Bool) (base : Nat) (s : List Char)
    (bitSize : Nat) : Nat × Option NumError :=
  if bitSize ≠ 0 ∧ bitSize > 64 then (0, some (bitSizeError "ParseUint" s0 bitSize))
  else
    let bitSize := if bitSize = 0 then IntSize else bitSize
    let cutoff := maxUint64 / base + 1
    let maxVal := u64 (u64 (1 <<< bitSize) + 18446744073709551616 - 1)
    match parseUintLoop s0 base base0 cutoff maxVal s 0 false with
    | Except.error (v, e) => (v, some e)
    | Except.ok (n, underscores) =>
      if underscores = true ∧ underscoreOK s0 = false then (0, some (syntaxError "ParseUint" s0))
      else (n, none)

/-- Go `strconv.ParseUint(s, base, bitSize)` for non-negative `base` and
`bitSize`. -/
def ParseUint (IntSize : Nat) (s : List Char) (base bitSize : Nat) : Nat × Option NumError :=
  if s = [] then (0, some (syntaxError "ParseUint" s))
  else if 2 ≤ base ∧ base ≤ 36 then parseUintBody IntSize s false base s bitSize
  else if base = 0 then
    parseUintBody IntSize s true (basePrefix s).1 (basePrefix s).2 bitSize
  else (0, some (baseError "ParseUint" s base))

/-- The range check of `ParseInt` on the unsigned value `un` and the final
conversion to `int64`. -/
def parseIntRange (IntSize : Nat) (s0 : List Char) (neg : Bool) (un bitSize : Nat) :
    Int64 × Option NumError :=
  let bitSize := if bitSize = 0 then IntSize else bitSize
  let cutoff := u64 (1 <<< (bitSize - 1))
  if neg = false ∧ un ≥ cutoff then
    (Int64.wrap ((u64 (cutoff + 18446744073709551616 - 1) : Nat) : Int),
      some (rangeError "ParseInt" s0))
  else if neg = true ∧ un > cutoff then
    (Int64.neg (Int64.wrap (cutoff : Int)), some (rangeError "ParseInt" s0))
  else
    let n := Int64.wrap (un : Int)
    (if neg = true then Int64.neg n else n, none)

/-- Go `strconv.ParseInt(s, base, bitSize)` for non-negative `base` and
`bitSize`. -/
def ParseInt (IntSize : Nat) (s0 : List Char) (base bitSize : Nat) : Int64 × Option NumError :=
  if s0 = [] then (Int64.wrap 0, some (syntaxError "ParseInt" s0))
  else
    let neg : Bool := decide (s0.head? = some '-')
    let s := if s0.head? = some '+' then s0.drop 1 else if s0.head? = some '-' then s0.drop 1 else s0
    match ParseUint IntSize s base bitSize with
    | (un, some err) =>
      if err.Err ≠ NumErr.ErrRange then (Int64.wrap 0, some ⟨"ParseInt", String.mk s0, err.Err⟩)
      else parseIntRange IntSize s0 neg un bitSize
    | (un, none) => parseIntRange IntSize s0 neg un bitSize

/-! ## `record.go`: the data model -/

/-- Go `Record` (`record.go`, lines 14-22). -/
structure Record where
  Name : String
  Content : String
  DomainId : Int64
  Id : Int64
  Prio : Int64
  RecordType : String
  Ttl : Int64
  deriving DecidableEq

/-- Go `RecordResponse` (`record.go`, lines 8-10). -/
structure RecordResponse where
  Record : dnsimple.Record
  deriving DecidableEq

/-- The zero value `Record\x7b\x7d`. -/
def Record.zero : Record := ⟨"", "", Int64.wrap 0, Int64.wrap 0, Int64.wrap 0, "", Int64.wrap 0⟩

/-- The zero value that `new(RecordResponse)` points to. -/
def RecordResponse.zero : RecordResponse := ⟨Record.zero⟩

/-- Go `(r *Record) StringDomainId()`. -/
def Record.StringDomainId (r : Record) : String := FormatInt r.DomainId

/-- Go `(r *Record) StringId()`. -/
def Record.StringId (r : Record) : String := FormatInt r.Id

/-- Go `(r *Record) StringPrio()`. -/
def Record.StringPrio (r : Record) : String := FormatInt r.Prio

/-- Go `(r *Record) StringTtl()`. -/
def Record.StringTtl (r : Record) : String := FormatInt r.Ttl

/-- Go `CreateRecord` (the options struct, `record.go`, lines 46-51). -/
structure CreateRecord where
  Name : String
  Value : String
  /-- Go field `Type` (a reserved word here). -/
  Type_ : String
  Ttl : String
  deriving DecidableEq

/-! ## Collaborators -/

/-- A non-nil Go `error`, observed through the text of its `Error()`
method.  A possibly nil `error` is an `Option Error`. -/
structure Error where
  msg : String
  deriving DecidableEq

/-- Go `fmt.Errorf(prefix + "%s", err)`: a fresh error whose text is the
prefix followed by the text of `err`. -/
def Errorf (pre : String) (err : Error) : Error := ⟨pre ++ err.msg⟩

/-- A value stored in the `map[string]interface\x7b\x7d` of request
parameters: `record.go` stores strings and `int64`s. -/
inductive Value where
  | str (s : String)
  | int (i : Int64)
  deriving DecidableEq

/-- A non-nil `map[string]interface\x7b\x7d`, as the list of its entries;
a possibly nil map is an `Option Params`. -/
abbrev Params : Type := List (String × Value)

/-- The assignment `m[k] = v`. -/
def mapSet : Params → String → Value → Params
  | [], k, v => [(k, v)]
  | (k', v') :: m, k, v => if k' = k then (k, v) :: m else (k', v') :: mapSet m k v

/-- The lookup `m[k]`, `none` when the key is absent. -/
def mapGet : Params → String → Option Value
  | [], _ => none
  | (k', v') :: m, k => if k' = k then some v' else mapGet m k

/-- A collaborator call made by an operation. -/
inductive Call (Req Resp : Type) where
  | NewRequest (body : Option Params) (method endpoint : String)
  | HttpDo (req : Req)
  | checkResp (resp : Resp) (err : Option Error)
  | decodeBody (resp : Resp)

/-- The `*Client` as `record.go` uses it: `c.NewRequest(body, method,
endpoint)` and `c.Http.Do(req)`.  `Req` and `Resp` are the values of type
`*http.Request` and `*http.Response`. -/
structure Client (Req Resp : Type) where
  NewRequest : Option Params → String → String → Req × Option Error
  HttpDo : Req → Resp × Option Error

/-- The package-level helpers `checkResp(resp, err)` and
`decodeBody(resp, out)`.  `decodeBody` is called with two kinds of target:
`RetrieveRecord` passes the pointer `record`, so the call can only change
the `RecordResponse` pointed to; `CreateRecord` passes `&record`, the
address of the pointer, so the call can also leave the pointer nil
(`none`). -/
structure Helpers (Resp : Type) where
  checkResp : Resp × Option Error → Resp × Option Error
  decodeBody : Resp → RecordResponse → RecordResponse × Option Error
  decodeBodyRef : Resp → Option RecordResponse → Option RecordResponse × Option Error

/-- What an operation does: the value it returns and the collaborator
calls it made, in order. -/
structure Run (α Req Resp : Type) where
  ret : α
  calls : List (Call Req Resp)

/-! ## `record.go`: the operations -/

section ops
variable {Req Resp : Type}

/-- Lines 72-93 of `CreateRecord`: everything after the parameter map is
assembled.  The returned value is `none` when the final
`record.Record.StringId()` dereferences a nil `record`. -/
def createRecordSend (h : Helpers Resp) (c : Client Req Resp) (domain : String)
    (params : Params) : Run (Option (String × Option Error)) Req Resp :=
  let endpoint := "/domains/" ++ domain ++ "/records"
  let call1 := Call.NewRequest (some params) "POST" endpoint
  match c.NewRequest (some params) "POST" endpoint with
  | (_, some err) => ⟨some ("", some err), [call1]⟩
  | (req, none) =>
    let call2 := Call.HttpDo req
    let call3 := Call.checkResp (c.HttpDo req).1 (c.HttpDo req).2
    match h.checkResp (c.HttpDo req) with
    | (_, some err) =>
      ⟨some ("", some (Errorf "Error creating record: " err)), [call1, call2, call3]⟩
    | (resp, none) =>
      let call4 := Call.decodeBody resp
      match h.decodeBodyRef resp (some RecordResponse.zero) with
      | (_, some err) =>
        ⟨some ("", some (Errorf "Error parsing record response: " err)),
          [call1, call2, call3, call4]⟩
      | (some record, none) => ⟨some (record.Record.StringId, none), [call1, call2, call3, call4]⟩
      | (none, none) => ⟨none, [call1, call2, call3, call4]⟩

/-- Lines 57-70 of `CreateRecord`: the parameter map that is assembled, or
`none` when the ttl fails to parse and the function returns at line 67. -/
def createRecordParams (IntSize : Nat) (opts : CreateRecord) : Option Params :=
  let params : Params := []
  let params := mapSet params "name" (Value.str opts.Name)
  let params := mapSet params "record_type" (Value.str opts.Type_)
  let params := mapSet params "content" (Value.str opts.Value)
  if opts.Ttl ≠ "" then
    match ParseInt IntSize opts.Ttl.toList 0 0 with
    | (_, some _) => none
    | (ttl, none) => some (mapSet params "ttl" (Value.int ttl))
  else some params

/-- Go `(c *Client) CreateRecord(domain, opts)` (`record.go`, lines 56-94). -/
def Client.CreateRecord (IntSize : Nat) (h : Helpers Resp) (c : Client Req Resp)
    (domain : String) (opts : CreateRecord) : Run (Option (String × Option Error)) Req Resp :=
  match createRecordParams IntSize opts with
  | none => ⟨some ("", none), []⟩
  | some params => createRecordSend h c domain params

/-- Go `(c *Client) DestroyRecord(id)` (`record.go`, lines 99-115). -/
def Client.DestroyRecord (h : Helpers Resp) (c : Client Req Resp) (id : String) :
    Run (Option Error) Req Resp :=
  let body : Option Params := none
  let call1 := Call.NewRequest body "DELETE" ("/records/" ++ id)
  match c.NewRequest body "DELETE" ("/records/" ++ id) with
  | (_, some err) => ⟨some err, [call1]⟩
  | (req, none) =>
    let call2 := Call.HttpDo req
    let call3 := Call.checkResp (c.HttpDo req).1 (c.HttpDo req).2
    match h.checkResp (c.HttpDo req) with
    | (_, some err) => ⟨some (Errorf "Error destroying record: " err), [call1, call2, call3]⟩
    | (_, none) => ⟨none, [call1, call2, call3]⟩

/-- Go `(c *Client) RetrieveRecord(id)` (`record.go`, lines 120-143). -/
def Client.RetrieveRecord (h : Helpers Resp) (c : Client Req Resp) (id : String) :
    Run (Record × Option Error) Req Resp :=
  let body : Option Params := none
  let call1 := Call.NewRequest body "GET" ("/records/" ++ id)
  match c.NewRequest body "GET" ("/records/" ++ id) with
  | (_, some err) => ⟨(Record.zero, some err), [call1]⟩
  | (req, none) =>
    let call2 := Call.HttpDo req
    let call3 := Call.checkResp (c.HttpDo req).1 (c.HttpDo req).2
    match h.checkResp (c.HttpDo req) with
    | (_, some err) =>
      ⟨(Record.zero, some (Errorf "Error destroying record: " err)), [call1, call2, call3]⟩
    | (resp, none) =>
      let call4 := Call.decodeBody resp
      match h.decodeBody resp RecordResponse.zero with
      | (_, some err) =>
        ⟨(Record.zero, some (Errorf "Error decoding record response: " err)),
          [call1, call2, call3, call4]⟩
      | (record, none) => ⟨(record.Record, none), [call1, call2, call3, call4]⟩

end ops


/-! ## Specification-side definitions -/

/-- The decimal digits of a natural number, most significant first: `0`
for zero, otherwise no leading zero. -/
def decimalDigits (n : Nat) : List Char :=
  if n = 0 then ['0'] else (Nat.digits 10 n).reverse.map Nat.digitChar

/-- The base-10 decimal representation of an integer: a `-` sign for a
negative number, then the decimal digits of the absolute value. -/
def decimal (i : Int) : String :=
  String.mk ((if i < 0 then ['-'] else []) ++ decimalDigits i.natAbs)

/-- The number read from a list of decimal digits, most significant
first, continuing from `n`. -/
def readDigits (n : Nat) (L : List Nat) : Nat := L.foldl (fun a d => a * 10 + d) n


/-! ## The response decoder of the spec -/

/-- A JSON value as read from a response body.  Numbers are the integer
literals; the spec transmits every integer field as a JSON number. -/
inductive JSON where
  | null
  | bool (b : Bool)
  | num (n : Int)
  | str (s : String)
  | arr (items : List JSON)
  | obj (fields : List (String × JSON))

/-- The member `key` of a JSON object, `none` when it is absent or the value
is not an object. -/
def JSON.member (j : JSON) (key : String) : Option JSON :=
  match j with
  | JSON.obj fields => fields.lookup key
  | _ => none

/-- The error of a body that does not match the expected JSON shape. -/
def decodeError : Error := ⟨"response body does not match expected JSON shape"⟩

/-- Part of the `decodeBody` model.  Decoding of one string field: an absent
or `null` member leaves the field as it is, a string sets it, anything else is
a decode error. -/
def decodeString (j : JSON) (key : String) (old : String) : Except Error String :=
  match j.member key with
  | none => Except.ok old
  | some JSON.null => Except.ok old
  | some (JSON.str s) => Except.ok s
  | some _ => Except.error decodeError

/-- Part of the `decodeBody` model.  Decoding of one integer field: an absent
or `null` member leaves the field as it is, a number within the `int64` range
sets it, anything else is a decode error. -/
def decodeInt64 (j : JSON) (key : String) (old : Int64) : Except Error Int64 :=
  match j.member key with
  | none => Except.ok old
  | some JSON.null => Except.ok old
  | some (JSON.num n) =>
    if h : -9223372036854775808 ≤ n ∧ n < 9223372036854775808 then Except.ok ⟨n, h⟩
    else Except.error decodeError
  | some _ => Except.error decodeError

/-- Part of the `decodeBody` model.  Decoding of a JSON object into a
`Record`, field by field, under the keys of the struct tags of `record.go`
(lines 15-21); `null` leaves the record as it is. -/
def decodeRecord (j : JSON) (old : Record) : Except Error Record :=
  match j with
  | JSON.obj _ => do
    let name ← decodeString j "name" old.Name
    let content ← decodeString j "content" old.Content
    let domainId ← decodeInt64 j "domain_id" old.DomainId
    let id ← decodeInt64 j "id" old.Id
    let prio ← decodeInt64 j "prio" old.Prio
    let recordType ← decodeString j "record_type" old.RecordType
    let ttl ← decodeInt64 j "ttl" old.Ttl
    pure ⟨name, content, domainId, id, prio, recordType, ttl⟩
  | JSON.null => Except.ok old
  | _ => Except.error decodeError

/-- Modelled from the spec: `decodeBody`, the response-body decoding helper
that `record.go` calls and does not define, at the target `*RecordResponse`.
The spec has it decode a JSON body into the target structure, a body of
another shape being a decode error; the body is given as the JSON value it
denotes, and the member `record` is decoded under the struct tag of
`record.go` line 9.  A `null` leaves the target as it is. -/
def decodeBodyModel (body : JSON) (out : RecordResponse) : RecordResponse × Option Error :=
  match body with
  | JSON.obj _ =>
    match body.member "record" with
    | none => (out, none)
    | some j =>
      match decodeRecord j out.Record with
      | Except.ok r => (⟨r⟩, none)
      | Except.error e => (out, some e)
  | JSON.null => (out, none)
  | _ => (out, some decodeError)

/-! ## A mocked endpoint

The status codes and response bodies of the spec's testable properties. -/

/-- A mocked response: a status code and a JSON body. -/
structure MockResponse where
  status : Nat
  body : JSON

/-- The status check of the mocked endpoint: a transport error is passed on,
and a status outside 200..299 is an error. -/
def mockCheckResp (r : MockResponse × Option Error) : MockResponse × Option Error :=
  match r.2 with
  | some err => (r.1, some err)
  | none =>
    if 200 ≤ r.1.status ∧ r.1.status < 300 then (r.1, none)
    else (r.1, some ⟨"API Error: non-success status"⟩)

/-- The helpers of the mocked endpoint with the decoder of the spec. -/
def mockHelpers : Helpers MockResponse where
  checkResp := mockCheckResp
  decodeBody := fun resp out => decodeBodyModel resp.body out
  decodeBodyRef := fun resp out =>
    match out with
    | some rr => ((some (decodeBodyModel resp.body rr).1), (decodeBodyModel resp.body rr).2)
    | none => (none, some decodeError)

/-- The helpers of the mocked endpoint with a stubbed decoder: a decode call
returns `err` and, when `err` is nil, stores `rr` in its target. -/
def stubHelpers (rr : RecordResponse) (err : Option Error) : Helpers MockResponse where
  checkResp := mockCheckResp
  decodeBody := fun _ out =>
    match err with
    | none => (rr, none)
    | some e => (out, some e)
  decodeBodyRef := fun _ out =>
    match err with
    | none => (some rr, none)
    | some e => (out, some e)

/-- A client whose every request is answered by `resp`; a request is the
method and the endpoint it was built with. -/
def mockClient (resp : MockResponse) : Client (String × String) MockResponse where
  NewRequest := fun _ method endpoint => ((method, endpoint), none)
  HttpDo := fun _ => (resp, none)

/-- The error of a request builder that fails. -/
def buildError : Error := ⟨"invalid endpoint"⟩

/-- A client whose request builder fails with `buildError`. -/
def brokenClient (resp : MockResponse) : Client (String × String) MockResponse where
  NewRequest := fun _ method endpoint => ((method, endpoint), some buildError)
  HttpDo := fun _ => (resp, none)

/-- The body of the spec's retrieve example: the object with the one member
`record` whose members are `id` 123, `domain_id` 456, `name` www, `content`
1.2.3.4, `record_type` A, `ttl` 3600 and `prio` 0. -/
def retrieveExampleBody : JSON :=
  JSON.obj [("record", JSON.obj [("id", JSON.num 123), ("domain_id", JSON.num 456),
    ("name", JSON.str "www"), ("content", JSON.str "1.2.3.4"), ("record_type", JSON.str "A"),
    ("ttl", JSON.num 3600), ("prio", JSON.num 0)])]

/-- A mocked success response carrying the retrieve example. -/
def mockSuccess : MockResponse := ⟨200, retrieveExampleBody⟩

/-- A mocked response with a 4xx status. -/
def mockNotFound : MockResponse := ⟨404, JSON.null⟩

/-- The error of the stubbed decoder when it fails. -/
def stubDecodeError : Error := ⟨"unexpected end of JSON input"⟩

/-- The options of a create request for an `A` record with the given ttl. -/
def exampleOpts (ttl : String) : CreateRecord := ⟨"www", "1.2.3.4", "A", ttl⟩

/-- The `Record` that the retrieve example denotes. -/
def retrieveExampleRecord : Record :=
  ⟨"www", "1.2.3.4", Int64.wrap 456, Int64.wrap 123, Int64.wrap 0, "A", Int64.wrap 3600⟩

/-- The stubbed helpers whose decoder succeeds with the example record. -/
def stubOK : Helpers MockResponse := stubHelpers ⟨retrieveExampleRecord⟩ none

/-- The stubbed helpers whose decoder fails. -/
def stubFail : Helpers MockResponse := stubHelpers RecordResponse.zero (some stubDecodeError)

/-- The `Record` of the spec's accessor example: `id=42, domainId=7, ttl=300,
prio=10`. -/
def accessorExample : Record :=
  ⟨"", "", Int64.wrap 7, Int64.wrap 42, Int64.wrap 10, "", Int64.wrap 300⟩

/-! ## Lemmas on `strconv` -/

theorem byteAt_digits (i : Nat) (h : i < 10) : byteAt digits i = Nat.digitChar i := by
  interval_cases i <;> rfl

theorem byteAt_smallsString (v : Nat) (h : v < 100) :
    byteAt smallsString (v * 2) = Nat.digitChar (v / 10) ∧
      byteAt smallsString (v * 2 + 1) = Nat.digitChar (v % 10) := by
  interval_cases v <;> exact ⟨rfl, rfl⟩

theorem decimalDigits_lt_ten (n : Nat) (h : n < 10) : decimalDigits n = [Nat.digitChar n] := by
  interval_cases n <;> first | rfl | simp [decimalDigits]

theorem decimalDigits_step (n : Nat) (h : 10 ≤ n) :
    decimalDigits n = decimalDigits (n / 10) ++ [Nat.digitChar (n % 10)] := by
  have h1 : n ≠ 0 := by omega
  have h2 : n / 10 ≠ 0 := by omega
  rw [decimalDigits, decimalDigits, if_neg h1, if_neg h2]
  conv_lhs => rw [Nat.digits_def' (by norm_num) (by omega)]
  simp

theorem formatBitsLoop_eq (fuel : Nat) : ∀ (us : Nat) (a : List Char), us < 100 ^ (fuel + 1) →
    formatBitsLoop (fuel + 1) us a = decimalDigits us ++ a := by
  induction fuel with
  | zero =>
    intro us a h
    have h100 : us < 100 := by simpa using h
    have hnot : ¬ us ≥ 100 := by omega
    obtain ⟨e1, e2⟩ := byteAt_smallsString us h100
    simp only [formatBitsLoop, if_neg hnot, e1, e2]
    by_cases h10 : us ≥ 10
    · rw [if_pos h10, decimalDigits_step us h10, decimalDigits_lt_ten (us / 10) (by omega)]
      simp
    · rw [if_neg h10, decimalDigits_lt_ten us (by omega), Nat.mod_eq_of_lt (by omega)]
      simp
  | succ fuel ih =>
    intro us a h
    by_cases h100 : us ≥ 100
    · have hlt : us / 100 < 100 ^ (fuel + 1) := by
        apply Nat.div_lt_of_lt_mul
        rw [pow_succ] at h
        omega
      obtain ⟨e1, e2⟩ := byteAt_smallsString (us % 100) (Nat.mod_lt _ (by norm_num))
      rw [formatBitsLoop, if_pos h100]
      simp only [e1, e2]
      rw [ih (us / 100) _ hlt, decimalDigits_step us (by omega),
        decimalDigits_step (us / 10) (by omega)]
      have q1 : us / 10 / 10 = us / 100 := by omega
      have q2 : us % 100 / 10 = us / 10 % 10 := by omega
      have q3 : us % 100 % 10 = us % 10 := by omega
      rw [q1, q2, q3]
      simp
    · obtain ⟨e1, e2⟩ := byteAt_smallsString us (by omega)
      simp only [formatBitsLoop, if_neg h100, e1, e2]
      by_cases h10 : us ≥ 10
      · rw [if_pos h10, decimalDigits_step us h10, decimalDigits_lt_ten (us / 10) (by omega)]
        simp
      · rw [if_neg h10, decimalDigits_lt_ten us (by omega), Nat.mod_eq_of_lt (by omega)]
        simp

theorem FormatInt_eq_decimal (i : Int64) : FormatInt i = decimal i.val := by
  obtain ⟨v, hlo, hhi⟩ := i
  unfold FormatInt decimal
  simp only [nSmalls]
  by_cases hs : 0 ≤ v ∧ v < (100 : Nat)
  · rw [if_pos hs]
    have hneg : ¬ v < 0 := by omega
    rw [if_neg hneg]
    have hv : v.toNat = v.natAbs := by omega
    congr 1
    rw [List.nil_append, ← hv]
    have hlt : v.toNat < 100 := by omega
    unfold small
    by_cases h10 : v.toNat < 10
    · rw [if_pos h10, byteAt_digits _ h10, decimalDigits_lt_ten _ h10]
    · obtain ⟨e1, e2⟩ := byteAt_smallsString v.toNat hlt
      rw [if_neg h10, e1, e2, decimalDigits_step _ (by omega),
        decimalDigits_lt_ten (v.toNat / 10) (by omega)]
      simp
  · rw [if_neg hs]
    congr 1
    unfold formatBits Int64.toUint64 u64
    by_cases hneg : v < 0
    · have hu : (18446744073709551616 - (v % 18446744073709551616).toNat) % 18446744073709551616
          = v.natAbs := by omega
      simp only [hneg, decide_True, if_true, hu]
      rw [formatBitsLoop_eq 31 _ _ (by norm_num; omega)]
      simp
    · have hu : (v % 18446744073709551616).toNat = v.natAbs := by omega
      simp only [hneg, decide_False, if_false, hu, Bool.false_eq_true]
      rw [formatBitsLoop_eq 31 _ _ (by norm_num; omega)]
      simp

theorem readDigits_ge (L : List Nat) : ∀ n : Nat, n ≤ readDigits n L := by
  induction L with
  | nil => intro n; exact Nat.le_refl n
  | cons d L ih =>
    intro n
    have := ih (n * 10 + d)
    simp only [readDigits, List.foldl_cons] at this ⊢
    omega

theorem readDigits_digits (n : Nat) : readDigits 0 (Nat.digits 10 n).reverse = n := by
  have h := Nat.ofDigits_digits 10 n
  rw [Nat.ofDigits_eq_foldr] at h
  rw [readDigits, List.foldl_reverse]
  simp only [Nat.cast_id] at h
  conv_rhs => rw [← h]
  congr 1
  funext x y
  omega

theorem digitChar_toNat (d : Nat) (h : d < 10) : (Nat.digitChar d).toNat = 48 + d := by
  interval_cases d <;> rfl

theorem parseUintLoop_digits (s0 : List Char) (L : List Nat) :
    ∀ n : Nat, (∀ d ∈ L, d < 10) → readDigits n L ≤ 18446744073709551615 →
      parseUintLoop s0 10 true (maxUint64 / 10 + 1) 18446744073709551615
        (L.map Nat.digitChar) n false = Except.ok (readDigits n L, false) := by
  induction L with
  | nil => intro n _ _; rfl
  | cons d L ih =>
    intro n hL hle
    have hd : d < 10 := hL d (List.mem_cons_self d L)
    have hc := digitChar_toNat d hd
    have hge := readDigits_ge L (n * 10 + d)
    have hle2 : readDigits (n * 10 + d) L ≤ 18446744073709551615 := hle
    have hne : Nat.digitChar d ≠ '_' := by
      intro e
      have : (Nat.digitChar d).toNat = '_'.toNat := by rw [e]
      rw [hc] at this
      have h95 : '_'.toNat = 95 := rfl
      omega
    have h0 : '0'.toNat = 48 := rfl
    have h9 : '9'.toNat = 57 := rfl
    have hdig : '0'.toNat ≤ (Nat.digitChar d).toNat ∧ (Nat.digitChar d).toNat ≤ '9'.toNat := by
      rw [hc, h0, h9]; omega
    have hsub : (Nat.digitChar d).toNat - '0'.toNat = d := by rw [hc, h0]; omega
    have hcut : ¬ n ≥ maxUint64 / 10 + 1 := by unfold maxUint64; omega
    have hbase : ¬ d ≥ 10 % 256 := by omega
    have e1 : u64 (n * 10) = n * 10 := by unfold u64; omega
    have e2 : u64 (n * 10 + d) = n * 10 + d := by unfold u64; omega
    have hchk : ¬ (n * 10 + d < n * 10 ∨ n * 10 + d > 18446744073709551615) := by omega
    rw [List.map_cons, parseUintLoop]
    simp only [hne, false_and, if_false, hdig, and_self, if_true, hsub]
    rw [if_neg hbase, if_neg hcut]
    simp only [e1, e2]
    rw [if_neg hchk]
    exact ih (n * 10 + d) (fun x hx => hL x (List.mem_cons_of_mem d hx)) hle2

theorem decimalDigits_head (n : Nat) :
    ∃ c rest, decimalDigits n = c :: rest ∧ 48 ≤ c.toNat ∧ c.toNat ≤ 57 ∧ (n ≠ 0 → c.toNat ≠ 48) := by
  by_cases hn : n = 0
  · subst hn
    exact ⟨'0', [], rfl, by decide, by decide, fun h => absurd rfl h⟩
  · have hne : Nat.digits 10 n ≠ [] := Nat.digits_ne_nil_iff_ne_zero.mpr hn
    have hlast := Nat.getLast_digit_ne_zero 10 hn
    have hmem : (Nat.digits 10 n).getLast hne ∈ Nat.digits 10 n := List.getLast_mem hne
    have hlt : (Nat.digits 10 n).getLast hne < 10 := Nat.digits_lt_base (by norm_num) hmem
    have hc := digitChar_toNat _ hlt
    refine ⟨Nat.digitChar ((Nat.digits 10 n).getLast hne),
      ((Nat.digits 10 n).dropLast.reverse.map Nat.digitChar), ?_, by omega, by omega, fun _ => by omega⟩
    rw [decimalDigits, if_neg hn]
    conv_lhs => rw [← List.dropLast_append_getLast hne]
    simp

theorem ParseUint_decimalDigits (n : Nat) (h : n ≤ 18446744073709551615) :
    ParseUint 64 (decimalDigits n) 0 0 = (n, none) := by
  by_cases hn : n = 0
  · subst hn
    decide
  · obtain ⟨c, rest, hcr, h1, h2, h3⟩ := decimalDigits_head n
    have hnil : decimalDigits n ≠ [] := by rw [hcr]; exact List.cons_ne_nil c rest
    have hhead : ¬ (decimalDigits n).head? = some '0' := by
      rw [hcr]
      intro e
      have e2 : c = '0' := by simpa using e
      have : c.toNat = 48 := by rw [e2]; rfl
      exact h3 hn this
    have hpre : basePrefix (decimalDigits n) = (10, decimalDigits n) := by
      rw [basePrefix, if_neg hhead]
    have hmax : u64 (u64 (1 <<< 64) + 18446744073709551616 - 1) = 18446744073709551615 := by
      decide
    have hmax2 : u64 (u64 18446744073709551616 + 18446744073709551615) = 18446744073709551615 := by
      decide
    have hloop := parseUintLoop_digits (decimalDigits n) (Nat.digits 10 n).reverse 0
      (fun d hd => Nat.digits_lt_base (by norm_num) (List.mem_reverse.mp hd))
      (by rw [readDigits_digits]; exact h)
    rw [readDigits_digits] at hloop
    have hds : decimalDigits n = (Nat.digits 10 n).reverse.map Nat.digitChar := by
      rw [decimalDigits, if_neg hn]
    rw [← hds] at hloop
    rw [ParseUint, if_neg hnil, if_neg (by omega), if_pos rfl, hpre]
    simp [parseUintBody, hmax, hmax2, hloop]

theorem ParseInt_decimal (i : Int64) : ParseInt 64 (decimal i.val).toList 0 0 = (i, none) := by
  obtain ⟨v, hlo, hhi⟩ := i
  obtain ⟨c, rest, hcr, h1, h2, _⟩ := decimalDigits_head v.natAbs
  have hu := ParseUint_decimalDigits v.natAbs (by omega)
  have hcut : u64 (1 <<< (64 - 1)) = 9223372036854775808 := by decide
  have hminus : c ≠ '-' := by
    intro e
    have : c.toNat = 45 := by rw [e]; rfl
    omega
  have hplus : c ≠ '+' := by
    intro e
    have : c.toNat = 43 := by rw [e]; rfl
    omega
  by_cases hneg : v < 0
  · have hl : (decimal v).toList = '-' :: decimalDigits v.natAbs := by
      simp [decimal, hneg]
    rw [hl, ParseInt, if_neg (List.cons_ne_nil _ _)]
    have hnotgt : ¬ (v.natAbs > 9223372036854775808) := by omega
    simp only [List.head?_cons, List.drop_succ_cons, List.drop_zero, hu, parseIntRange, hcut,
      show (some '-' = some '+') = False by decide, if_false, if_true, decide_True,
      Bool.true_eq_false, false_and, true_and, hnotgt]
    apply Prod.ext
    · apply Subtype.ext
      simp only [Int64.neg, Int64.wrap]
      omega
    · rfl
  · have hl : (decimal v).toList = c :: rest := by
      simp [decimal, hneg, hcr]
    have hs1 : ¬ (some c = some '+') := by simpa using hplus
    have hs2 : ¬ (some c = some '-') := by simpa using hminus
    rw [hl, ParseInt, if_neg (List.cons_ne_nil _ _)]
    have hnotge : ¬ (v.natAbs ≥ 9223372036854775808) := by omega
    have hu2 : ParseUint 64 (c :: rest) 0 0 = (v.natAbs, none) := by rw [← hcr]; exact hu
    simp only [List.head?_cons, hs1, hs2, if_false, if_true, hu2, parseIntRange, hcut,
      decide_False, Bool.false_eq_true, false_and, true_and, hnotge]
    apply Prod.ext
    · apply Subtype.ext
      simp only [Int64.wrap]
      omega
    · rfl

theorem ParseInt_FormatInt (i : Int64) : ParseInt 64 (FormatInt i).toList 0 0 = (i, none) := by
  rw [FormatInt_eq_decimal]
  exact ParseInt_decimal i


/-! ## Lemmas on the operations -/

theorem decimalDigits_ne_nil (n : Nat) : decimalDigits n ≠ [] := by
  obtain ⟨c, rest, hcr, _⟩ := decimalDigits_head n
  rw [hcr]
  exact List.cons_ne_nil c rest

theorem FormatInt_ne_empty (i : Int64) : FormatInt i ≠ "" := by
  rw [FormatInt_eq_decimal]
  intro e
  have hd : (decimal i.val).data = [] := by rw [e]
  have hn := decimalDigits_ne_nil i.val.natAbs
  by_cases hneg : i.val < 0
  · simp [decimal, hneg] at hd
  · exact hn (by simpa [decimal, hneg] using hd)

theorem createRecordParams_empty (IntSize : Nat) (opts : CreateRecord) (h : opts.Ttl = "") :
    createRecordParams IntSize opts = some [("name", Value.str opts.Name),
      ("record_type", Value.str opts.Type_), ("content", Value.str opts.Value)] := by
  simp [createRecordParams, h, mapSet]

theorem createRecordParams_parsed (IntSize : Nat) (opts : CreateRecord) (ttl : Int64)
    (h : opts.Ttl ≠ "") (hp : ParseInt IntSize opts.Ttl.toList 0 0 = (ttl, none)) :
    createRecordParams IntSize opts = some [("name", Value.str opts.Name),
      ("record_type", Value.str opts.Type_), ("content", Value.str opts.Value),
      ("ttl", Value.int ttl)] := by
  have hp2 : ParseInt IntSize opts.Ttl.data 0 0 = (ttl, none) := hp
  simp [createRecordParams, h, hp2, mapSet]

theorem createRecordParams_failed (IntSize : Nat) (opts : CreateRecord)
    (h : opts.Ttl ≠ "") (hp : (ParseInt IntSize opts.Ttl.toList 0 0).2 ≠ none) :
    createRecordParams IntSize opts = none := by
  rcases hq : ParseInt IntSize opts.Ttl.toList 0 0 with ⟨ttl, _ | e⟩
  · rw [hq] at hp
    exact absurd rfl hp
  · have hq2 : ParseInt IntSize opts.Ttl.data 0 0 = (ttl, some e) := hq
    simp [createRecordParams, h, hq2]

theorem createRecordParams_none_iff (IntSize : Nat) (opts : CreateRecord) :
    createRecordParams IntSize opts = none ↔
      (opts.Ttl ≠ "" ∧ (ParseInt IntSize opts.Ttl.toList 0 0).2 ≠ none) := by
  constructor
  · intro hnone
    by_cases h : opts.Ttl = ""
    · rw [createRecordParams_empty IntSize opts h] at hnone
      exact absurd hnone (by simp)
    · refine ⟨h, ?_⟩
      rcases hq : ParseInt IntSize opts.Ttl.toList 0 0 with ⟨ttl, _ | e⟩
      · rw [createRecordParams_parsed IntSize opts ttl h hq] at hnone
        exact absurd hnone (by simp)
      · simp
  · rintro ⟨h, hp⟩
    exact createRecordParams_failed IntSize opts h hp

section opsLemmas
variable {Req Resp : Type}

/-- The five ways `createRecordSend` can end, each with the collaborator
results that select it. -/
theorem createRecordSend_cases (h : Helpers Resp) (c : Client Req Resp) (domain : String)
    (params : Params) :
    (∃ req e, c.NewRequest (some params) "POST" ("/domains/" ++ domain ++ "/records") = (req, some e) ∧
      createRecordSend h c domain params =
        ⟨some ("", some e),
          [Call.NewRequest (some params) "POST" ("/domains/" ++ domain ++ "/records")]⟩) ∨
    (∃ req resp e, c.NewRequest (some params) "POST" ("/domains/" ++ domain ++ "/records") = (req, none) ∧
      h.checkResp (c.HttpDo req) = (resp, some e) ∧
      createRecordSend h c domain params =
        ⟨some ("", some (Errorf "Error creating record: " e)),
          [Call.NewRequest (some params) "POST" ("/domains/" ++ domain ++ "/records"),
            Call.HttpDo req, Call.checkResp (c.HttpDo req).1 (c.HttpDo req).2]⟩) ∨
    (∃ req resp p d, c.NewRequest (some params) "POST" ("/domains/" ++ domain ++ "/records") = (req, none) ∧
      h.checkResp (c.HttpDo req) = (resp, none) ∧
      h.decodeBodyRef resp (some RecordResponse.zero) = (p, some d) ∧
      createRecordSend h c domain params =
        ⟨some ("", some (Errorf "Error parsing record response: " d)),
          [Call.NewRequest (some params) "POST" ("/domains/" ++ domain ++ "/records"),
            Call.HttpDo req, Call.checkResp (c.HttpDo req).1 (c.HttpDo req).2,
            Call.decodeBody resp]⟩) ∨
    (∃ req resp rr, c.NewRequest (some params) "POST" ("/domains/" ++ domain ++ "/records") = (req, none) ∧
      h.checkResp (c.HttpDo req) = (resp, none) ∧
      h.decodeBodyRef resp (some RecordResponse.zero) = (some rr, none) ∧
      createRecordSend h c domain params =
        ⟨some (rr.Record.StringId, none),
          [Call.NewRequest (some params) "POST" ("/domains/" ++ domain ++ "/records"),
            Call.HttpDo req, Call.checkResp (c.HttpDo req).1 (c.HttpDo req).2,
            Call.decodeBody resp]⟩) ∨
    (∃ req resp, c.NewRequest (some params) "POST" ("/domains/" ++ domain ++ "/records") = (req, none) ∧
      h.checkResp (c.HttpDo req) = (resp, none) ∧
      h.decodeBodyRef resp (some RecordResponse.zero) = (none, none) ∧
      createRecordSend h c domain params =
        ⟨none,
          [Call.NewRequest (some params) "POST" ("/domains/" ++ domain ++ "/records"),
            Call.HttpDo req, Call.checkResp (c.HttpDo req).1 (c.HttpDo req).2,
            Call.decodeBody resp]⟩) := by
  rcases hN : c.NewRequest (some params) "POST" ("/domains/" ++ domain ++ "/records") with ⟨req, _ | e⟩
  · rcases hC : h.checkResp (c.HttpDo req) with ⟨resp, _ | e⟩
    · rcases hD : h.decodeBodyRef resp (some RecordResponse.zero) with ⟨_ | rr, _ | d⟩
      · right; right; right; right
        exact ⟨req, resp, rfl, hC, hD, by simp only [createRecordSend, hN, hC, hD]⟩
      · right; right; left
        exact ⟨req, resp, none, d, rfl, hC, hD, by simp only [createRecordSend, hN, hC, hD]⟩
      · right; right; right; left
        exact ⟨req, resp, rr, rfl, hC, hD, by simp only [createRecordSend, hN, hC, hD]⟩
      · right; right; left
        exact ⟨req, resp, some rr, d, rfl, hC, hD, by simp only [createRecordSend, hN, hC, hD]⟩
    · right; left
      exact ⟨req, resp, e, rfl, hC, by simp only [createRecordSend, hN, hC]⟩
  · left
    exact ⟨req, e, rfl, by simp only [createRecordSend, hN]⟩

theorem createRecordSend_head (h : Helpers Resp) (c : Client Req Resp) (domain : String)
    (params : Params) :
    (createRecordSend h c domain params).calls.head? =
      some (Call.NewRequest (some params) "POST" ("/domains/" ++ domain ++ "/records")) := by
  rcases createRecordSend_cases h c domain params with
    ⟨_, _, _, hr⟩ | ⟨_, _, _, _, _, hr⟩ | ⟨_, _, _, _, _, _, _, hr⟩ | ⟨_, _, _, _, _, _, hr⟩ |
    ⟨_, _, _, _, _, hr⟩ <;> rw [hr] <;> rfl

end opsLemmas

/-- The parameter map assembled when the ttl is absent or parses: its
content, key by key. -/
theorem createRecordParams_reach (IntSize : Nat) (opts : CreateRecord)
    (hreach : opts.Ttl = "" ∨ (ParseInt IntSize opts.Ttl.toList 0 0).2 = none) :
    ∃ params : Params, createRecordParams IntSize opts = some params ∧
      mapGet params "name" = some (Value.str opts.Name) ∧
      mapGet params "record_type" = some (Value.str opts.Type_) ∧
      mapGet params "content" = some (Value.str opts.Value) ∧
      (mapGet params "ttl" ≠ none ↔ opts.Ttl ≠ "") ∧
      (opts.Ttl ≠ "" → (ParseInt IntSize opts.Ttl.toList 0 0).2 = none ∧
        mapGet params "ttl" = some (Value.int (ParseInt IntSize opts.Ttl.toList 0 0).1)) ∧
      (∀ k, mapGet params k ≠ none →
        k = "name" ∨ k = "record_type" ∨ k = "content" ∨ k = "ttl") := by
  by_cases hne : opts.Ttl = ""
  · have hp := createRecordParams_empty IntSize opts hne
    refine ⟨[("name", Value.str opts.Name), ("record_type", Value.str opts.Type_),
      ("content", Value.str opts.Value)], hp, ?_, ?_, ?_, ?_, ?_, ?_⟩
    · simp [mapGet]
    · simp [mapGet]
    · simp [mapGet]
    · simp [mapGet, hne]
    · intro hc
      exact absurd hne hc
    · intro k hk
      simp only [mapGet] at hk
      by_cases h1 : "name" = k
      · exact Or.inl h1.symm
      · by_cases h2 : "record_type" = k
        · exact Or.inr (Or.inl h2.symm)
        · by_cases h3 : "content" = k
          · exact Or.inr (Or.inr (Or.inl h3.symm))
          · simp [h1, h2, h3] at hk
  · have hok : (ParseInt IntSize opts.Ttl.toList 0 0).2 = none := by
      rcases hreach with h0 | h0
      · exact absurd h0 hne
      · exact h0
    rcases hq : ParseInt IntSize opts.Ttl.toList 0 0 with ⟨ttl, _ | e⟩
    · have hp := createRecordParams_parsed IntSize opts ttl hne hq
      refine ⟨[("name", Value.str opts.Name), ("record_type", Value.str opts.Type_),
        ("content", Value.str opts.Value), ("ttl", Value.int ttl)], hp, ?_, ?_, ?_, ?_, ?_, ?_⟩
      · simp [mapGet]
      · simp [mapGet]
      · simp [mapGet]
      · simp [mapGet, hne]
      · intro _
        simp [mapGet]
      · intro k hk
        simp only [mapGet] at hk
        by_cases h1 : "name" = k
        · exact Or.inl h1.symm
        · by_cases h2 : "record_type" = k
          · exact Or.inr (Or.inl h2.symm)
          · by_cases h3 : "content" = k
            · exact Or.inr (Or.inr (Or.inl h3.symm))
            · by_cases h4 : "ttl" = k
              · exact Or.inr (Or.inr (Or.inr h4.symm))
              · simp [h1, h2, h3, h4] at hk
    · rw [hq] at hok
      exact Option.noConfusion hok

/-! ## The claims -/

/-- C1: for every client, domain and options whose `Ttl` is a non-empty string
that fails to parse as an integer, `CreateRecord` returns the empty identifier
and a nil error, and it makes no collaborator call. -/
theorem C1_createRecord_malformed_ttl {Req Resp : Type} (IntSize : Nat) (h : Helpers Resp)
    (c : Client Req Resp) (domain : String) (opts : CreateRecord)
    (hne : opts.Ttl ≠ "") (hbad : (ParseInt IntSize opts.Ttl.toList 0 0).2 ≠ none) :
    (Client.CreateRecord IntSize h c domain opts).ret = some ("", none) ∧
      (Client.CreateRecord IntSize h c domain opts).calls = [] := by
  have hp := createRecordParams_failed IntSize opts hne hbad
  simp only [Client.CreateRecord, hp, and_self]

/-- C1 at the spec's example: the ttl `not-a-number` is non-empty and fails
to parse, and the create call returns the empty identifier and no error. -/
theorem C1_createRecord_malformed_ttl_witness :
    (exampleOpts "not-a-number").Ttl ≠ "" ∧
      (ParseInt 64 (exampleOpts "not-a-number").Ttl.toList 0 0).2 ≠ none ∧
      (Client.CreateRecord 64 stubOK (mockClient mockSuccess) "example.com"
        (exampleOpts "not-a-number")).ret = some ("", none) :=
  ⟨by decide, by decide,
    (C1_createRecord_malformed_ttl 64 stubOK (mockClient mockSuccess) "example.com"
      (exampleOpts "not-a-number") (by decide) (by decide)).1⟩

/-- C2: when the request is built, the response passes the status check and
the body decodes to `rr`, `CreateRecord` returns the base-10 decimal
representation of `rr.Record.Id` and a nil error; that string is not empty, so
a non-empty returned identifier is that decimal string. -/
theorem C2_createRecord_returns_id {Req Resp : Type} (IntSize : Nat) (h : Helpers Resp)
    (c : Client Req Resp) (domain : String) (opts : CreateRecord) (params : Params) (req : Req)
    (resp : Resp) (rr : RecordResponse)
    (hp : createRecordParams IntSize opts = some params)
    (hreq : c.NewRequest (some params) "POST" ("/domains/" ++ domain ++ "/records") = (req, none))
    (hchk : h.checkResp (c.HttpDo req) = (resp, none))
    (hdec : h.decodeBodyRef resp (some RecordResponse.zero) = (some rr, none)) :
    (Client.CreateRecord IntSize h c domain opts).ret = some (decimal rr.Record.Id.val, none) ∧
      decimal rr.Record.Id.val ≠ "" ∧
      (∀ s e, (Client.CreateRecord IntSize h c domain opts).ret = some (s, e) → s ≠ "" →
        s = decimal rr.Record.Id.val) := by
  have hret : (Client.CreateRecord IntSize h c domain opts).ret
      = some (decimal rr.Record.Id.val, none) := by
    simp only [Client.CreateRecord, hp, createRecordSend, hreq, hchk, hdec, Record.StringId,
      FormatInt_eq_decimal]
  refine ⟨hret, ?_, ?_⟩
  · rw [← FormatInt_eq_decimal]
    exact FormatInt_ne_empty _
  · intro s e hs _
    rw [hret] at hs
    injection hs with hs
    injection hs with hs1 _
    exact hs1.symm

/-- C2 on the mocked endpoint: a create request with ttl `3600` answered by
the success response whose record has id 123 returns `123`. -/
theorem C2_createRecord_returns_id_witness :
    (Client.CreateRecord 64 stubOK (mockClient mockSuccess) "example.com"
      (exampleOpts "3600")).ret = some ("123", none) :=
  (C2_createRecord_returns_id 64 stubOK (mockClient mockSuccess) "example.com"
    (exampleOpts "3600")
    [("name", Value.str "www"), ("record_type", Value.str "A"), ("content", Value.str "1.2.3.4"),
      ("ttl", Value.int (Int64.wrap 3600))]
    ("POST", "/domains/example.com/records") mockSuccess ⟨retrieveExampleRecord⟩
    rfl rfl rfl rfl).1.trans (by rw [← FormatInt_eq_decimal]; decide)

/-- C3: whenever `CreateRecord` reaches request building (the ttl is empty or
parses), there is a parameter map that has `name`, `record_type` and `content`
from the options, has `ttl` exactly when `opts.Ttl` is non-empty (the value
being the parsed integer), and has no other key, and the request builder is
applied to that map with method `POST` and endpoint `/domains/` ++ domain ++
`/records`: it is the first call, an error of that application is returned as
it is, and the request that application yields is the one handed to the
transport, whose checked answer decides the result. -/
theorem C3_createRecord_params {Req Resp : Type} (IntSize : Nat) (h : Helpers Resp)
    (c : Client Req Resp) (domain : String) (opts : CreateRecord)
    (hreach : opts.Ttl = "" ∨ (ParseInt IntSize opts.Ttl.toList 0 0).2 = none) :
    ∃ params : Params,
      (Client.CreateRecord IntSize h c domain opts).calls.head? =
        some (Call.NewRequest (some params) "POST" ("/domains/" ++ domain ++ "/records")) ∧
      mapGet params "name" = some (Value.str opts.Name) ∧
      mapGet params "record_type" = some (Value.str opts.Type_) ∧
      mapGet params "content" = some (Value.str opts.Value) ∧
      (mapGet params "ttl" ≠ none ↔ opts.Ttl ≠ "") ∧
      (opts.Ttl ≠ "" → (ParseInt IntSize opts.Ttl.toList 0 0).2 = none ∧
        mapGet params "ttl" = some (Value.int (ParseInt IntSize opts.Ttl.toList 0 0).1)) ∧
      (∀ k, mapGet params k ≠ none →
        k = "name" ∨ k = "record_type" ∨ k = "content" ∨ k = "ttl") ∧
      (Client.CreateRecord IntSize h c domain opts).calls ≠ [] ∧
      (∀ req e, c.NewRequest (some params) "POST" ("/domains/" ++ domain ++ "/records")
          = (req, some e) →
        Client.CreateRecord IntSize h c domain opts =
          ⟨some ("", some e),
            [Call.NewRequest (some params) "POST" ("/domains/" ++ domain ++ "/records")]⟩) ∧
      (∀ req, c.NewRequest (some params) "POST" ("/domains/" ++ domain ++ "/records")
          = (req, none) →
        (Client.CreateRecord IntSize h c domain opts).calls.take 3 =
          [Call.NewRequest (some params) "POST" ("/domains/" ++ domain ++ "/records"),
            Call.HttpDo req, Call.checkResp (c.HttpDo req).1 (c.HttpDo req).2] ∧
        (∀ resp e, h.checkResp (c.HttpDo req) = (resp, some e) →
          (Client.CreateRecord IntSize h c domain opts).ret =
            some ("", some ⟨"Error creating record: " ++ e.msg⟩)) ∧
        (∀ resp rr, h.checkResp (c.HttpDo req) = (resp, none) →
          h.decodeBodyRef resp (some RecordResponse.zero) = (some rr, none) →
          (Client.CreateRecord IntSize h c domain opts).ret =
            some (rr.Record.StringId, none))) := by
  obtain ⟨params, hp, k1, k2, k3, k4, k5, k6⟩ := createRecordParams_reach IntSize opts hreach
  have hrun : Client.CreateRecord IntSize h c domain opts = createRecordSend h c domain params := by
    simp only [Client.CreateRecord, hp]
  have hhead := createRecordSend_head h c domain params
  refine ⟨params, ?_, k1, k2, k3, k4, k5, k6, ?_, ?_, ?_⟩
  · rw [hrun]
    exact hhead
  · rw [hrun]
    intro hnil
    rw [hnil] at hhead
    exact Option.noConfusion hhead
  · intro req e hN
    rw [hrun]
    simp only [createRecordSend, hN]
  · intro req hN
    rw [hrun]
    refine ⟨?_, ?_, ?_⟩
    · rcases hC : h.checkResp (c.HttpDo req) with ⟨resp, _ | e⟩
      · rcases hD : h.decodeBodyRef resp (some RecordResponse.zero) with ⟨_ | rr, _ | d⟩ <;>
          simp only [createRecordSend, hN, hC, hD] <;> rfl
      · simp only [createRecordSend, hN, hC]
        rfl
    · intro resp e hC
      simp only [createRecordSend, hN, hC, Errorf]
    · intro resp rr hC hD
      simp only [createRecordSend, hN, hC, hD]

/-- C3 on the mocked endpoint: a create request with ttl `3600` reaches
request building; the builder receives the four parameters, and when it fails
its error is what the create call returns. -/
theorem C3_createRecord_params_witness :
    ((exampleOpts "3600").Ttl = "" ∨ (ParseInt 64 (exampleOpts "3600").Ttl.toList 0 0).2 = none) ∧
      ∃ params : Params,
        (Client.CreateRecord 64 stubOK (brokenClient mockSuccess) "example.com"
          (exampleOpts "3600")).calls.head? =
          some (Call.NewRequest (some params) "POST" ("/domains/" ++ "example.com" ++ "/records")) ∧
        mapGet params "name" = some (Value.str "www") ∧
        mapGet params "record_type" = some (Value.str "A") ∧
        mapGet params "content" = some (Value.str "1.2.3.4") ∧
        mapGet params "ttl" = some (Value.int (Int64.wrap 3600)) ∧
        Client.CreateRecord 64 stubOK (brokenClient mockSuccess) "example.com"
          (exampleOpts "3600") =
          ⟨some ("", some buildError),
            [Call.NewRequest (some params) "POST" ("/domains/" ++ "example.com" ++ "/records")]⟩ :=
  ⟨Or.inr (by decide),
    match C3_createRecord_params 64 stubOK (brokenClient mockSuccess) "example.com"
      (exampleOpts "3600") (Or.inr (by decide)) with
    | ⟨params, hhead, k1, k2, k3, _, k5, _, _, hbuild, _⟩ =>
      ⟨params, hhead, k1, k2, k3, (k5 (by decide)).2.trans (by decide),
        hbuild ("POST", "/domains/example.com/records") buildError rfl⟩⟩

/-- C4: once the request is built, a transport or status failure with error
`e` makes `CreateRecord` return the empty string and the error whose text is
`Error creating record: ` followed by the text of `e`; a decode failure with
error `d` after a passed status check makes it return the empty string and the
error whose text is `Error parsing record response: ` followed by the text of
`d`. -/
theorem C4_createRecord_errors {Req Resp : Type} (IntSize : Nat) (h : Helpers Resp)
    (c : Client Req Resp) (domain : String) (opts : CreateRecord) (params : Params) (req : Req)
    (hp : createRecordParams IntSize opts = some params)
    (hreq : c.NewRequest (some params) "POST" ("/domains/" ++ domain ++ "/records") = (req, none)) :
    (∀ resp e, h.checkResp (c.HttpDo req) = (resp, some e) →
      (Client.CreateRecord IntSize h c domain opts).ret =
        some ("", some ⟨"Error creating record: " ++ e.msg⟩)) ∧
    (∀ resp p d, h.checkResp (c.HttpDo req) = (resp, none) →
      h.decodeBodyRef resp (some RecordResponse.zero) = (p, some d) →
      (Client.CreateRecord IntSize h c domain opts).ret =
        some ("", some ⟨"Error parsing record response: " ++ d.msg⟩)) := by
  constructor
  · intro resp e hchk
    simp only [Client.CreateRecord, hp, createRecordSend, hreq, hchk, Errorf]
  · intro resp p d hchk hdec
    simp only [Client.CreateRecord, hp, createRecordSend, hreq, hchk, hdec, Errorf]

/-- C4 on the mocked endpoint: a 404 answer gives the wrapped status error,
and a success answer whose decoding fails gives the wrapped decode error. -/
theorem C4_createRecord_errors_witness :
    (Client.CreateRecord 64 stubOK (mockClient mockNotFound) "example.com"
        (exampleOpts "")).ret = some ("", some ⟨"Error creating record: API Error: non-success status"⟩) ∧
      (Client.CreateRecord 64 stubFail (mockClient mockSuccess) "example.com"
        (exampleOpts "")).ret =
        some ("", some ⟨"Error parsing record response: " ++ stubDecodeError.msg⟩) :=
  ⟨((C4_createRecord_errors 64 stubOK (mockClient mockNotFound) "example.com"
      (exampleOpts "")
      [("name", Value.str "www"), ("record_type", Value.str "A"), ("content", Value.str "1.2.3.4")]
      ("POST", "/domains/example.com/records") rfl rfl).1 mockNotFound
      ⟨"API Error: non-success status"⟩ rfl),
    (C4_createRecord_errors 64 stubFail (mockClient mockSuccess) "example.com"
      (exampleOpts "")
      [("name", Value.str "www"), ("record_type", Value.str "A"), ("content", Value.str "1.2.3.4")]
      ("POST", "/domains/example.com/records") rfl rfl).2 mockSuccess (some RecordResponse.zero)
      stubDecodeError rfl rfl⟩

/-- C5: when the request is built and the response passes the status check,
`RetrieveRecord` returns the decoded `rr.Record`, every field unchanged, and a
nil error.  The decoder of the spec maps the JSON keys `name`, `content`,
`domain_id`, `id`, `prio`, `record_type`, `ttl` to the fields `Name`,
`Content`, `DomainId`, `Id`, `Prio`, `RecordType`, `Ttl`, and on the example
body the result has `Id = 123`, `DomainId = 456`, `Ttl = 3600`, `Name = www`,
`Content = 1.2.3.4`, `RecordType = A`, `Prio = 0`. -/
theorem C5_retrieveRecord_success {Req Resp : Type} (h : Helpers Resp) (c : Client Req Resp)
    (id : String) (req : Req) (resp : Resp)
    (hreq : c.NewRequest none "GET" ("/records/" ++ id) = (req, none))
    (hchk : h.checkResp (c.HttpDo req) = (resp, none)) :
    (∀ rr, h.decodeBody resp RecordResponse.zero = (rr, none) →
      (Client.RetrieveRecord h c id).ret = (rr.Record, none)) ∧
    (∀ (name content recordType : String) (domainId id prio ttl : Int64),
      decodeBodyModel (JSON.obj [("record", JSON.obj [("name", JSON.str name),
        ("content", JSON.str content), ("domain_id", JSON.num domainId.val),
        ("id", JSON.num id.val), ("prio", JSON.num prio.val),
        ("record_type", JSON.str recordType), ("ttl", JSON.num ttl.val)])]) RecordResponse.zero
        = (⟨⟨name, content, domainId, id, prio, recordType, ttl⟩⟩, none)) ∧
    (h.decodeBody resp RecordResponse.zero = decodeBodyModel retrieveExampleBody RecordResponse.zero →
      (Client.RetrieveRecord h c id).ret = (retrieveExampleRecord, none)) ∧
    (retrieveExampleRecord.Id.val = 123 ∧ retrieveExampleRecord.DomainId.val = 456 ∧
      retrieveExampleRecord.Ttl.val = 3600 ∧ retrieveExampleRecord.Name = "www" ∧
      retrieveExampleRecord.Content = "1.2.3.4" ∧ retrieveExampleRecord.RecordType = "A" ∧
      retrieveExampleRecord.Prio.val = 0) := by
  have hgen : ∀ rr, h.decodeBody resp RecordResponse.zero = (rr, none) →
      (Client.RetrieveRecord h c id).ret = (rr.Record, none) := by
    intro rr hdec
    simp only [Client.RetrieveRecord, hreq, hchk, hdec]
  refine ⟨hgen, ?_, ?_, by decide⟩
  · intro name content recordType domainId id prio ttl
    have h1 := domainId.property
    have h2 := id.property
    have h3 := prio.property
    have h4 := ttl.property
    simp [decodeBodyModel, decodeRecord, decodeString, decodeInt64, JSON.member, List.lookup,
      h1, h2, h3, h4, bind, Except.bind, pure, Except.pure]
  · intro hdec
    have hex : decodeBodyModel retrieveExampleBody RecordResponse.zero
        = (⟨retrieveExampleRecord⟩, none) := by decide
    rw [hex] at hdec
    exact hgen _ hdec

/-- C5 on the mocked endpoint: retrieving from the success response that
carries the example body returns the example record and no error. -/
theorem C5_retrieveRecord_success_witness :
    (Client.RetrieveRecord mockHelpers (mockClient mockSuccess) "123").ret
      = (retrieveExampleRecord, none) :=
  (C5_retrieveRecord_success mockHelpers (mockClient mockSuccess) "123" ("GET", "/records/123")
    mockSuccess rfl rfl).2.2.1 rfl

/-- C6: `RetrieveRecord` fails exactly when the request builder, the
transport and status check, or the decoder returns an error, and then it
returns the zero-value `Record` (all strings empty, all integers 0) with a
non-nil error: the builder's own error when the request cannot be built, the
error whose text is `Error destroying record: ` followed by the text of `e`
on a transport or status failure `e`, and the error whose text is `Error
decoding record response: ` followed by the text of `d` on a decode failure
`d`. -/
theorem C6_retrieveRecord_errors {Req Resp : Type} (h : Helpers Resp) (c : Client Req Resp)
    (id : String) :
    ((Client.RetrieveRecord h c id).ret.2 ≠ none →
      (Client.RetrieveRecord h c id).ret.1 = Record.zero) ∧
    (∀ req resp e, c.NewRequest none "GET" ("/records/" ++ id) = (req, none) →
      h.checkResp (c.HttpDo req) = (resp, some e) →
      (Client.RetrieveRecord h c id).ret =
        (Record.zero, some ⟨"Error destroying record: " ++ e.msg⟩)) ∧
    (∀ req resp rr d, c.NewRequest none "GET" ("/records/" ++ id) = (req, none) →
      h.checkResp (c.HttpDo req) = (resp, none) →
      h.decodeBody resp RecordResponse.zero = (rr, some d) →
      (Client.RetrieveRecord h c id).ret =
        (Record.zero, some ⟨"Error decoding record response: " ++ d.msg⟩)) ∧
    (Record.zero.Name = "" ∧ Record.zero.Content = "" ∧ Record.zero.RecordType = "" ∧
      Record.zero.DomainId.val = 0 ∧ Record.zero.Id.val = 0 ∧ Record.zero.Prio.val = 0 ∧
      Record.zero.Ttl.val = 0) ∧
    (∀ req e, c.NewRequest none "GET" ("/records/" ++ id) = (req, some e) →
      (Client.RetrieveRecord h c id).ret = (Record.zero, some e)) ∧
    ((Client.RetrieveRecord h c id).ret.2 ≠ none ↔
      ((c.NewRequest none "GET" ("/records/" ++ id)).2 ≠ none ∨
        (h.checkResp (c.HttpDo (c.NewRequest none "GET" ("/records/" ++ id)).1)).2 ≠ none ∨
        (h.decodeBody (h.checkResp (c.HttpDo (c.NewRequest none "GET" ("/records/" ++ id)).1)).1
          RecordResponse.zero).2 ≠ none)) := by
  refine ⟨?_, ?_, ?_, by decide, ?_, ?_⟩
  · rcases hN : c.NewRequest none "GET" ("/records/" ++ id) with ⟨req, _ | e⟩
    · rcases hC : h.checkResp (c.HttpDo req) with ⟨resp, _ | e⟩
      · rcases hD : h.decodeBody resp RecordResponse.zero with ⟨rr, _ | d⟩
        · simp only [Client.RetrieveRecord, hN, hC, hD]
          intro hc
          exact absurd rfl hc
        · simp only [Client.RetrieveRecord, hN, hC, hD]
          intro _
          trivial
      · simp only [Client.RetrieveRecord, hN, hC]
        intro _
        trivial
    · simp only [Client.RetrieveRecord, hN]
      intro _
      trivial
  · intro req resp e hreq hchk
    simp only [Client.RetrieveRecord, hreq, hchk, Errorf]
  · intro req resp rr d hreq hchk hdec
    simp only [Client.RetrieveRecord, hreq, hchk, hdec, Errorf]
  · intro req e hreq
    simp only [Client.RetrieveRecord, hreq]
  · rcases hN : c.NewRequest none "GET" ("/records/" ++ id) with ⟨req, _ | e⟩
    · rcases hC : h.checkResp (c.HttpDo req) with ⟨resp, _ | e⟩
      · rcases hD : h.decodeBody resp RecordResponse.zero with ⟨rr, _ | d⟩
        · simp [Client.RetrieveRecord, hN, hC, hD]
        · simp [Client.RetrieveRecord, hN, hC, hD]
      · simp [Client.RetrieveRecord, hN, hC]
    · simp [Client.RetrieveRecord, hN]

/-- C6 on the mocked endpoint: a 404 answer gives the zero record with the
wrapped status error, a success answer whose decoding fails gives the zero
record with the wrapped decode error, and a request that cannot be built gives
the zero record with the builder's error. -/
theorem C6_retrieveRecord_errors_witness :
    (Client.RetrieveRecord stubOK (mockClient mockNotFound) "123").ret =
        (Record.zero, some ⟨"Error destroying record: API Error: non-success status"⟩) ∧
      (Client.RetrieveRecord stubFail (mockClient mockSuccess) "123").ret =
        (Record.zero, some ⟨"Error decoding record response: " ++ stubDecodeError.msg⟩) ∧
      (Client.RetrieveRecord stubOK (mockClient mockNotFound) "123").ret.1 = Record.zero ∧
      (Client.RetrieveRecord stubOK (brokenClient mockSuccess) "123").ret =
        (Record.zero, some buildError) :=
  ⟨(C6_retrieveRecord_errors stubOK (mockClient mockNotFound) "123").2.1
      ("GET", "/records/123") mockNotFound ⟨"API Error: non-success status"⟩ rfl rfl,
    (C6_retrieveRecord_errors stubFail (mockClient mockSuccess) "123").2.2.1
      ("GET", "/records/123") mockSuccess RecordResponse.zero stubDecodeError rfl rfl rfl,
    (C6_retrieveRecord_errors stubOK (mockClient mockNotFound) "123").1
      (fun e => Option.noConfusion e),
    (C6_retrieveRecord_errors stubOK (brokenClient mockSuccess) "123").2.2.2.2.1
      ("GET", "/records/123") buildError rfl⟩

/-- C7: once the DELETE request to `/records/` ++ id is built, `DestroyRecord`
returns nil exactly when the transport call and status check succeed;
otherwise, with underlying error `e`, it returns the error whose text is
`Error destroying record: ` followed by the text of `e`.  Its calls are the
request builder, the transport and the status check: the body is never
decoded. -/
theorem C7_destroyRecord {Req Resp : Type} (h : Helpers Resp) (c : Client Req Resp)
    (id : String) (req : Req)
    (hreq : c.NewRequest none "DELETE" ("/records/" ++ id) = (req, none)) :
    ((Client.DestroyRecord h c id).ret = none ↔ (h.checkResp (c.HttpDo req)).2 = none) ∧
    (∀ e, (h.checkResp (c.HttpDo req)).2 = some e →
      (Client.DestroyRecord h c id).ret = some ⟨"Error destroying record: " ++ e.msg⟩) ∧
    (Client.DestroyRecord h c id).calls =
      [Call.NewRequest none "DELETE" ("/records/" ++ id), Call.HttpDo req,
        Call.checkResp (c.HttpDo req).1 (c.HttpDo req).2] ∧
    (∀ resp, Call.decodeBody resp ∉ (Client.DestroyRecord h c id).calls) := by
  rcases hC : h.checkResp (c.HttpDo req) with ⟨resp, _ | e⟩
  · refine ⟨?_, ?_, ?_, ?_⟩
    · simp only [Client.DestroyRecord, hreq, hC]
    · intro e he
      exact Option.noConfusion he
    · simp only [Client.DestroyRecord, hreq, hC]
    · intro r
      simp only [Client.DestroyRecord, hreq, hC]
      simp
  · refine ⟨?_, ?_, ?_, ?_⟩
    · simp only [Client.DestroyRecord, hreq, hC]
      simp
    · intro e2 he
      have : e = e2 := by simpa using he
      subst this
      simp only [Client.DestroyRecord, hreq, hC, Errorf]
    · simp only [Client.DestroyRecord, hreq, hC]
    · intro r
      simp only [Client.DestroyRecord, hreq, hC]
      simp

/-- C7 on the mocked endpoint: destroying against a success status returns
nil, against a 404 status the wrapped status error. -/
theorem C7_destroyRecord_witness :
    (Client.DestroyRecord stubOK (mockClient mockSuccess) "123").ret = none ∧
      (Client.DestroyRecord stubOK (mockClient mockNotFound) "123").ret =
        some ⟨"Error destroying record: API Error: non-success status"⟩ :=
  ⟨(C7_destroyRecord stubOK (mockClient mockSuccess) "123" ("DELETE", "/records/123")
      rfl).1.mpr rfl,
    (C7_destroyRecord stubOK (mockClient mockNotFound) "123" ("DELETE", "/records/123")
      rfl).2.1 ⟨"API Error: non-success status"⟩ rfl⟩

/-- C8: for every `Record`, `StringId`, `StringDomainId`, `StringTtl` and
`StringPrio` return the base-10 decimal representation of `Id`, `DomainId`,
`Ttl` and `Prio` respectively, each of its own field; on the record with
`Id = 42`, `DomainId = 7`, `Ttl = 300`, `Prio = 10` they return `42`, `7`,
`300`, `10`, and a negative field is rendered with a leading `-`. -/
theorem C8_string_accessors (r : Record) :
    r.StringId = decimal r.Id.val ∧ r.StringDomainId = decimal r.DomainId.val ∧
      r.StringTtl = decimal r.Ttl.val ∧ r.StringPrio = decimal r.Prio.val ∧
      (accessorExample.Id.val = 42 ∧ accessorExample.DomainId.val = 7 ∧
        accessorExample.Ttl.val = 300 ∧ accessorExample.Prio.val = 10) ∧
      (accessorExample.StringId = "42" ∧ accessorExample.StringDomainId = "7" ∧
        accessorExample.StringTtl = "300" ∧ accessorExample.StringPrio = "10") ∧
      (Record.StringPrio ⟨"", "", Int64.wrap 0, Int64.wrap 0, Int64.wrap (-15), "", Int64.wrap 0⟩
        = "-15") :=
  ⟨FormatInt_eq_decimal r.Id, FormatInt_eq_decimal r.DomainId, FormatInt_eq_decimal r.Ttl,
    FormatInt_eq_decimal r.Prio, by decide, by decide, by decide⟩

/-- C9: `CreateRecord` returns the empty identifier with a nil error if and
only if `opts.Ttl` is non-empty and fails to parse.  When the ttl is empty or
parses, the parameter map is built and every path is settled by the
collaborators: an error of the request builder, of the transport and status
check, or of the decoder is returned as a non-nil error with an empty
identifier, and when all three succeed the identifier is the `StringId` of the
decoded record, which is never empty.  (When the decoder reports no error and
leaves the record pointer nil, line 93 dereferences nil and nothing is
returned.)  Hence a nil error with a non-empty identifier means that the
request was built and sent, passed the status check and was decoded. -/
theorem C9_createRecord_silent_iff {Req Resp : Type} (IntSize : Nat) (h : Helpers Resp)
    (c : Client Req Resp) (domain : String) (opts : CreateRecord) :
    ((Client.CreateRecord IntSize h c domain opts).ret = some ("", none) ↔
      (opts.Ttl ≠ "" ∧ (ParseInt IntSize opts.Ttl.toList 0 0).2 ≠ none)) ∧
    (∀ i : Int64, FormatInt i ≠ "") ∧
    (∀ s, (Client.CreateRecord IntSize h c domain opts).ret = some (s, none) → s ≠ "" →
      ∃ params req resp rr,
        c.NewRequest (some params) "POST" ("/domains/" ++ domain ++ "/records") = (req, none) ∧
        h.checkResp (c.HttpDo req) = (resp, none) ∧
        h.decodeBodyRef resp (some RecordResponse.zero) = (some rr, none) ∧
        s = rr.Record.StringId ∧
        (Client.CreateRecord IntSize h c domain opts).calls =
          [Call.NewRequest (some params) "POST" ("/domains/" ++ domain ++ "/records"),
            Call.HttpDo req, Call.checkResp (c.HttpDo req).1 (c.HttpDo req).2,
            Call.decodeBody resp]) ∧
    ((opts.Ttl = "" ∨ (ParseInt IntSize opts.Ttl.toList 0 0).2 = none) →
      ∃ params : Params, createRecordParams IntSize opts = some params ∧
        (∀ req e, c.NewRequest (some params) "POST" ("/domains/" ++ domain ++ "/records")
            = (req, some e) →
          (Client.CreateRecord IntSize h c domain opts).ret = some ("", some e)) ∧
        (∀ req resp e, c.NewRequest (some params) "POST" ("/domains/" ++ domain ++ "/records")
            = (req, none) →
          h.checkResp (c.HttpDo req) = (resp, some e) →
          (Client.CreateRecord IntSize h c domain opts).ret =
            some ("", some ⟨"Error creating record: " ++ e.msg⟩)) ∧
        (∀ req resp p d, c.NewRequest (some params) "POST" ("/domains/" ++ domain ++ "/records")
            = (req, none) →
          h.checkResp (c.HttpDo req) = (resp, none) →
          h.decodeBodyRef resp (some RecordResponse.zero) = (p, some d) →
          (Client.CreateRecord IntSize h c domain opts).ret =
            some ("", some ⟨"Error parsing record response: " ++ d.msg⟩)) ∧
        (∀ req resp rr, c.NewRequest (some params) "POST" ("/domains/" ++ domain ++ "/records")
            = (req, none) →
          h.checkResp (c.HttpDo req) = (resp, none) →
          h.decodeBodyRef resp (some RecordResponse.zero) = (some rr, none) →
          (Client.CreateRecord IntSize h c domain opts).ret = some (rr.Record.StringId, none) ∧
            rr.Record.StringId ≠ "") ∧
        (∀ req resp, c.NewRequest (some params) "POST" ("/domains/" ++ domain ++ "/records")
            = (req, none) →
          h.checkResp (c.HttpDo req) = (resp, none) →
          h.decodeBodyRef resp (some RecordResponse.zero) = (none, none) →
          (Client.CreateRecord IntSize h c domain opts).ret = none)) := by
  refine ⟨?_, FormatInt_ne_empty, ?_, ?_⟩
  · rw [← createRecordParams_none_iff]
    constructor
    · intro hret
      rcases hp : createRecordParams IntSize opts with _ | params
      · rfl
      · exfalso
        simp only [Client.CreateRecord, hp] at hret
        rcases createRecordSend_cases h c domain params with
          ⟨_, _, _, hr⟩ | ⟨_, _, _, _, _, hr⟩ | ⟨_, _, _, _, _, _, _, hr⟩ | ⟨_, _, rr, _, _, _, hr⟩ |
          ⟨_, _, _, _, _, hr⟩
        · rw [hr] at hret
          simp at hret
        · rw [hr] at hret
          simp at hret
        · rw [hr] at hret
          simp at hret
        · rw [hr] at hret
          have hs : rr.Record.StringId = "" := by simpa using hret
          exact FormatInt_ne_empty rr.Record.Id hs
        · rw [hr] at hret
          simp at hret
    · intro hp
      simp only [Client.CreateRecord, hp]
  · intro s hret hs
    rcases hp : createRecordParams IntSize opts with _ | params
    · simp only [Client.CreateRecord, hp] at hret
      have : s = "" := by simpa using hret.symm
      exact absurd this hs
    · simp only [Client.CreateRecord, hp] at hret ⊢
      rcases createRecordSend_cases h c domain params with
        ⟨_, _, _, hr⟩ | ⟨_, _, _, _, _, hr⟩ | ⟨_, _, _, _, _, _, _, hr⟩ |
        ⟨req, resp, rr, hN, hC, hD, hr⟩ | ⟨_, _, _, _, _, hr⟩
      · rw [hr] at hret
        simp at hret
      · rw [hr] at hret
        simp at hret
      · rw [hr] at hret
        simp at hret
      · rw [hr] at hret ⊢
        have hs2 : rr.Record.StringId = s := by simpa using hret
        exact ⟨params, req, resp, rr, hN, hC, hD, hs2.symm, rfl⟩
      · rw [hr] at hret
        simp at hret
  · intro hreach
    obtain ⟨params, hp, _⟩ := createRecordParams_reach IntSize opts hreach
    have hrun : Client.CreateRecord IntSize h c domain opts
        = createRecordSend h c domain params := by
      simp only [Client.CreateRecord, hp]
    refine ⟨params, hp, ?_, ?_, ?_, ?_, ?_⟩
    · intro req e hN
      rw [hrun]
      simp only [createRecordSend, hN]
    · intro req resp e hN hC
      rw [hrun]
      simp only [createRecordSend, hN, hC, Errorf]
    · intro req resp p d hN hC hD
      rw [hrun]
      simp only [createRecordSend, hN, hC, hD, Errorf]
    · intro req resp rr hN hC hD
      rw [hrun]
      refine ⟨?_, FormatInt_ne_empty rr.Record.Id⟩
      simp only [createRecordSend, hN, hC, hD]
    · intro req resp hN hC hD
      rw [hrun]
      simp only [createRecordSend, hN, hC, hD]

/-- C9 on the mocked endpoint: with the ttl `not-a-number` the create call
returns the empty identifier and no error; with no ttl a 404 answer does not;
and with no ttl a request that cannot be built returns the builder's error. -/
theorem C9_createRecord_silent_iff_witness :
    (Client.CreateRecord 64 stubOK (mockClient mockSuccess) "example.com"
        (exampleOpts "not-a-number")).ret = some ("", none) ∧
      (Client.CreateRecord 64 stubOK (mockClient mockNotFound) "example.com"
        (exampleOpts "")).ret ≠ some ("", none) ∧
      (∃ params : Params, createRecordParams 64 (exampleOpts "") = some params ∧
        (Client.CreateRecord 64 stubOK (brokenClient mockSuccess) "example.com"
          (exampleOpts "")).ret = some ("", some buildError)) :=
  ⟨(C9_createRecord_silent_iff 64 stubOK (mockClient mockSuccess) "example.com"
      (exampleOpts "not-a-number")).1.mpr ⟨by decide, by decide⟩,
    fun hret => ((C9_createRecord_silent_iff 64 stubOK (mockClient mockNotFound)
      "example.com" (exampleOpts "")).1.mp hret).1 rfl,
    match (C9_createRecord_silent_iff 64 stubOK (brokenClient mockSuccess) "example.com"
      (exampleOpts "")).2.2.2 (Or.inl rfl) with
    | ⟨params, hp, hbuild, _⟩ =>
      ⟨params, hp, hbuild ("POST", "/domains/example.com/records") buildError rfl⟩⟩

/-- C10: with a 64-bit platform `int`, for every `Record` the text
`r.StringTtl()` is non-empty and parses (base inferred from the prefix) back
to exactly `r.Ttl` without error, so a create request whose `Ttl` is that text
is not silently dropped and its first call is the request builder with `ttl`
equal to `r.Ttl`; the hand-written ttl `010` is sent as 8 and `0x10` as 16. -/
theorem C10_stringTtl_roundtrip {Req Resp : Type} (r : Record) (h : Helpers Resp)
    (c : Client Req Resp) (domain name value type_ : String) :
    r.StringTtl ≠ "" ∧
    ParseInt 64 r.StringTtl.toList 0 0 = (r.Ttl, none) ∧
    createRecordParams 64 ⟨name, value, type_, r.StringTtl⟩ =
      some [("name", Value.str name), ("record_type", Value.str type_),
        ("content", Value.str value), ("ttl", Value.int r.Ttl)] ∧
    (Client.CreateRecord 64 h c domain ⟨name, value, type_, r.StringTtl⟩).calls.head? =
      some (Call.NewRequest (some [("name", Value.str name), ("record_type", Value.str type_),
        ("content", Value.str value), ("ttl", Value.int r.Ttl)]) "POST"
        ("/domains/" ++ domain ++ "/records")) ∧
    mapGet [("name", Value.str name), ("record_type", Value.str type_),
        ("content", Value.str value), ("ttl", Value.int r.Ttl)] "ttl" = some (Value.int r.Ttl) ∧
    (ParseInt 64 "010".toList 0 0 = (Int64.wrap 8, none) ∧
      ParseInt 64 "0x10".toList 0 0 = (Int64.wrap 16, none)) ∧
    (mapGet ((createRecordParams 64 (exampleOpts "010")).getD []) "ttl" =
        some (Value.int (Int64.wrap 8)) ∧
      mapGet ((createRecordParams 64 (exampleOpts "0x10")).getD []) "ttl" =
        some (Value.int (Int64.wrap 16))) := by
  have hne : r.StringTtl ≠ "" := FormatInt_ne_empty r.Ttl
  have hparse : ParseInt 64 r.StringTtl.toList 0 0 = (r.Ttl, none) := ParseInt_FormatInt r.Ttl
  have hp := createRecordParams_parsed 64 ⟨name, value, type_, r.StringTtl⟩ r.Ttl hne hparse
  refine ⟨hne, hparse, hp, ?_, ?_, by decide, by decide⟩
  · simp only [Client.CreateRecord, hp]
    exact createRecordSend_head h c domain _
  · simp [mapGet]

end dnsimple
